import Mathlib

/-!
Verification development for the morning-digest Telegram bot (`src/main.py`).

The Python source is shallowly embedded: pure fragments become Lean
functions; effectful fragments (file I/O, HTTP, message delivery) become
functions over explicit representations of their inputs and produce explicit
traces of their outputs.  Machine integers do not overflow in the source
(Python ints are unbounded), so `Int`/`Nat` are used directly.  Exceptions
are modelled with `Except`.
-/

/-! ### Constants (src/main.py, module level) -/

def MAX_DESCRIPTION_LEN : Nat := 260

/-! ### Python string primitives used by the source

`pyStrip`/`pyRstrip` model `str.strip()`/`str.rstrip()` (whitespace
trimming at the ends); `pyTruthy` models the truthiness test `if s:` on a
string; `strContains s pat` models Python `pat in s`.
-/

def pyTruthy (s : String) : Bool := !s.isEmpty

def pyStrip (s : String) : String :=
  ⟨((s.data.dropWhile Char.isWhitespace).reverse.dropWhile Char.isWhitespace).reverse⟩

def pyRstrip (s : String) : String :=
  ⟨(s.data.reverse.dropWhile Char.isWhitespace).reverse⟩

/-- Python `str.lower()` (ASCII case mapping; the permanent-failure
markers the source matches are ASCII). -/
def pyLower (s : String) : String := ⟨s.data.map Char.toLower⟩

def listStartsWith : List Char → List Char → Bool
  | _, [] => true
  | [], _ :: _ => false
  | a :: as, b :: bs => a == b && listStartsWith as bs

def strContains (s pat : String) : Bool :=
  (List.range (s.data.length + 1)).any fun i => listStartsWith (s.data.drop i) pat.data

/-! ### JSON documents and Python `int()` coercion

`json.loads` / `json.dumps` belong to the Python standard library (an
external collaborator); the file contents are therefore modelled at the
document level: a file state is `Option (Except String Json)` — `none` for
a missing file, `some (.error e)` for an unreadable file or a parse
failure (`OSError` / `json.JSONDecodeError`), `some (.ok j)` for a file
whose content parses to the document `j`.  JSON numbers are modelled as
integers (the persisted file only ever holds integers).

`pyInt` models the builtin `int(item)` on a decoded JSON value: numbers
and booleans coerce, strings are parsed (raising `ValueError` on failure),
and `None`/lists/objects raise `TypeError`.
-/

inductive Json where
  | null
  | bool (b : Bool)
  | num (n : Int)
  | str (s : String)
  | arr (items : List Json)
  | obj (fields : List (String × Json))

inductive PyError where
  | typeError
  | valueError
  deriving DecidableEq

def parseDigits : List Char → Option Nat
  | [] => none
  | ds =>
    if ds.all Char.isDigit then
      some (ds.foldl (fun acc c => acc * 10 + (c.toNat - 48)) 0)
    else none

def pyIntOfString (s : String) : Except PyError Int :=
  match (pyStrip s).data with
  | '-' :: ds =>
    match parseDigits ds with
    | some n => .ok (-(n : Int))
    | none => .error .valueError
  | '+' :: ds =>
    match parseDigits ds with
    | some n => .ok (n : Int)
    | none => .error .valueError
  | ds =>
    match parseDigits ds with
    | some n => .ok (n : Int)
    | none => .error .valueError

def pyInt : Json → Except PyError Int
  | .num n => .ok n
  | .bool b => .ok (if b then 1 else 0)
  | .str s => pyIntOfString s
  | .null => .error .typeError
  | .arr _ => .error .typeError
  | .obj _ => .error .typeError

/-- The set comprehension `{int(item) for item in data}`: items are coerced
left to right and the first exception raised aborts the comprehension. -/
def intsOfItems : List Json → Except PyError (List Int)
  | [] => .ok []
  | j :: rest =>
    match pyInt j with
    | .error e => .error e
    | .ok n =>
      match intsOfItems rest with
      | .error e => .error e
      | .ok l => .ok (n :: l)

/-! ### `load_subscribers` / `save_subscribers` (src/main.py lines 37–55) -/

/-- `load_subscribers()`.  The `try` block catches `OSError`, `ValueError`
and `json.JSONDecodeError` (a `ValueError` subclass), so a read or parse
failure yields the empty set; a `TypeError` raised by `int(item)` inside
the comprehension is NOT caught and escapes (`.error .typeError`). -/
def load_subscribers (file : Option (Except String Json)) :
    Except PyError (Finset Int) :=
  match file with
  | none => .ok ∅
  | some (.error _) => .ok ∅
  | some (.ok (Json.arr items)) =>
    match intsOfItems items with
    | .ok l => .ok l.toFinset
    | .error .valueError => .ok ∅
    | .error .typeError => .error .typeError
  | some (.ok _) => .ok ∅

/-- `sorted(subscribers)` in `save_subscribers`. -/
def save_subscribers_list (s : Finset Int) : List Int := s.sort (· ≤ ·)

/-- `json.dumps(sorted(subscribers), ensure_ascii=False, indent=2)`:
an indented JSON array of the sorted ids. -/
def json_dumps_int_list : List Int → String
  | [] => "[]"
  | l => "[\n  " ++ String.intercalate ",\n  " (l.map toString) ++ "\n]"

/-- The JSON document `save_subscribers` writes. -/
def save_subscribers_json (s : Finset Int) : Json :=
  .arr ((save_subscribers_list s).map .num)

/-- The file text `save_subscribers` writes. -/
def save_subscribers (s : Finset Int) : String :=
  json_dumps_int_list (save_subscribers_list s)

/-! ### Facts and message rendering (src/main.py lines 123–173) -/

structure WeatherFact where
  temp : Int
  feels_like : Int
  humidity : Int
  description : String

structure NewsFact where
  title : String
  description : String
  url : String

/-- Python `"\n".join(lines)`. -/
def joinLines : List String → String
  | [] => ""
  | [a] => a
  | a :: b :: rest => a ++ "\n" ++ joinLines (b :: rest)

def weather_unavailable_line : String :=
  "🌡 Погода: временно недоступна (API не ответил или лимит исчерпан)."

/-- The four weather lines appended when the weather fact is present. -/
def weather_block (w : WeatherFact) : List String :=
  ["🌡 Температура: " ++ toString w.temp ++ "°C",
   "🤍 Ощущается как: " ++ toString w.feels_like ++ "°C",
   "💧 Влажность: " ++ toString w.humidity ++ "%",
   "🌤 Описание: " ++ w.description]

def no_news_line : String :=
  "Сегодня не удалось получить позитивную новость " ++
  "(не найдена или API временно недоступен)."

/-- The `lines` list built by `build_message`. -/
def build_message_lines (w : Option WeatherFact) (n : Option NewsFact) :
    List String :=
  ["Доброе утро ☀️", "", "📍 Москва"] ++
  (match w with
   | none => [weather_unavailable_line]
   | some wf => weather_block wf) ++
  ["", "📰 Хорошая новость дня:"] ++
  (match n with
   | none => [no_news_line]
   | some nf => [nf.title, nf.description, nf.url])

/-- `build_message(weather, news)`. -/
def build_message (w : Option WeatherFact) (n : Option NewsFact) : String :=
  joinLines (build_message_lines w n)

/-- What `build_daily_message` keeps of the weather task's outcome:
an exception is logged and collapses to `None`. -/
def weather_data (wr : Except String WeatherFact) : Option WeatherFact :=
  match wr with
  | .ok w => some w
  | .error _ => none

/-- What `build_daily_message` keeps of the news task's outcome:
an exception collapses to `None`; a successful fetch may itself be `None`
(no matching article). -/
def news_data (nr : Except String (Option NewsFact)) : Option NewsFact :=
  match nr with
  | .ok n => n
  | .error _ => none

/-- `build_daily_message()` given the two gathered task outcomes
(`asyncio.gather(..., return_exceptions=True)` yields each task's result
or its exception). -/
def build_daily_message (wr : Except String WeatherFact)
    (nr : Except String (Option NewsFact)) : String :=
  build_message (weather_data wr) (news_data nr)

/-! ### News selection (src/main.py lines 88–120) -/

/-- A raw article from the upstream payload; `none` models a missing field
or JSON `null` (`article.get(...)` yields `None` in both cases). -/
structure RawArticle where
  title : Option String
  description : Option String
  url : Option String

/-- Python `(x or "")` for `x` an optional string: `None` and `""` are both
falsy and give `""`. -/
def pyOrEmpty (o : Option String) : String := o.getD ""

/-- The truncation applied to a selected description (lines 116–117):
`description[: MAX_DESCRIPTION_LEN - 3].rstrip() + "..."` when over the
limit, unchanged otherwise. -/
def truncate_description (d : String) : String :=
  if MAX_DESCRIPTION_LEN < d.length then
    pyRstrip ⟨d.data.take (MAX_DESCRIPTION_LEN - 3)⟩ ++ "..."
  else d

/-- The loop condition `if title and description and url:` on the stripped
fields. -/
def valid_article (a : RawArticle) : Bool :=
  pyTruthy (pyStrip (pyOrEmpty a.title)) &&
  pyTruthy (pyStrip (pyOrEmpty a.description)) &&
  pyTruthy (pyStrip (pyOrEmpty a.url))

/-- The fact returned for a selected article. -/
def mk_news_fact (a : RawArticle) : NewsFact :=
  { title := pyStrip (pyOrEmpty a.title)
    description := truncate_description (pyStrip (pyOrEmpty a.description))
    url := pyStrip (pyOrEmpty a.url) }

/-- The `for article in articles:` loop of `fetch_positive_news`. -/
def select_positive_news : List RawArticle → Option NewsFact
  | [] => none
  | a :: rest =>
    let title := pyStrip (pyOrEmpty a.title)
    let description := pyStrip (pyOrEmpty a.description)
    let url := pyStrip (pyOrEmpty a.url)
    if pyTruthy title && pyTruthy description && pyTruthy url then
      some { title := title
             description := truncate_description description
             url := url }
    else select_positive_news rest

/-- The upstream HTTP response, already decoded: status code, the payload's
`status` field (absent when the key is missing), its `message` field, and
its `articles` list. -/
structure NewsResponse where
  status_code : Nat
  status : Option String
  message : Option String
  articles : List RawArticle

/-- `fetch_positive_news` from the response onward: 429 raises, any other
non-success status raises (`response.raise_for_status()`), a payload with
`status == "error"` raises, otherwise the article loop runs and its result
— possibly `None` — is returned as a success. -/
def fetch_positive_news (r : NewsResponse) : Except String (Option NewsFact) :=
  if r.status_code == 429 then .error "News API rate limit exceeded"
  else if 400 ≤ r.status_code then .error "HTTPStatusError"
  else if r.status == some "error" then
    .error ((r.message).getD "Unknown News API error")
  else .ok (select_positive_news r.articles)

/-! ### Broadcast (src/main.py lines 176–217) -/

/-- Outcome of one `context.bot.send_message` call: success, or an
exception carrying a message. -/
inductive DeliveryOutcome where
  | ok
  | err (msg : String)

/-- The stale test on a caught delivery exception (lines 210–211):
`"forbidden" in str(exc).lower() or "chat not found" in str(exc).lower()`. -/
def is_stale_error (msg : String) : Bool :=
  strContains (pyLower msg) "forbidden" || strContains (pyLower msg) "chat not found"

/-- Whether one delivery outcome marks the recipient permanently
unreachable. -/
def classify_permanent (o : DeliveryOutcome) : Bool :=
  match o with
  | .ok => false
  | .err msg => is_stale_error msg

/-- The `for chat_id in set(subscribers):` loop: every recipient is
attempted (first component, in order), failures are caught and the stale
ones collected (second component); no failure aborts the loop. -/
def deliver_loop (deliver : Int → DeliveryOutcome) :
    List Int → List Int × Finset Int
  | [] => ([], ∅)
  | c :: rest =>
    let r := deliver_loop deliver rest
    (c :: r.1, if classify_permanent (deliver c) then insert c r.2 else r.2)

/-- Observable trace of one `send_daily_digest` run. -/
structure DigestTrace where
  assembled : Bool
  attempts : List Int
  stale : Finset Int
  newSubscribers : Finset Int
  fileWrite : Option String
  deriving DecidableEq

/-- `send_daily_digest(context)` over the current subscriber set and the
delivery primitive's behaviour.  `if not subscribers: return` short-circuits
before any assembly; otherwise the digest is assembled, every recipient in
the snapshot is attempted once (the snapshot is enumerated in sorted order —
Python's set iteration order is arbitrary, and no claim depends on it), and
the subscriber set is replaced and persisted only when `stale_chat_ids` is
non-empty. -/
def send_daily_digest (subs : Finset Int) (deliver : Int → DeliveryOutcome) :
    DigestTrace :=
  if subs = ∅ then
    { assembled := false, attempts := [], stale := ∅
      newSubscribers := subs, fileWrite := none }
  else
    let r := deliver_loop deliver (subs.sort (· ≤ ·))
    if r.2 = ∅ then
      { assembled := true, attempts := r.1, stale := r.2
        newSubscribers := subs, fileWrite := none }
    else
      { assembled := true, attempts := r.1, stale := r.2
        newSubscribers := subs \ r.2
        fileWrite := some (save_subscribers (subs \ r.2)) }

/-! ### `/start` handler (src/main.py lines 176–193) -/

structure Chat where
  id : Int

/-- The fields of an inbound update that `start_handler` consults. -/
structure TgUpdate where
  effective_chat : Option Chat
  effective_message : Bool

/-- Observable effects of one `start_handler` call. -/
structure HandlerResult where
  subscribers : Finset Int
  fileWrite : Option String
  replied : Bool
  deriving DecidableEq

/-- `start_handler(update, context)`: bail out when there is no effective
chat; otherwise add the chat id to the subscriber set, persist it, and
reply when an effective message exists. -/
def start_handler (u : TgUpdate) (subs : Finset Int) : HandlerResult :=
  match u.effective_chat with
  | none => { subscribers := subs, fileWrite := none, replied := false }
  | some chat =>
    let subs2 := insert chat.id subs
    { subscribers := subs2
      fileWrite := some (save_subscribers subs2)
      replied := u.effective_message }

/-! ### Helper lemmas -/

theorem joinLines_cons_eq (a : String) (l : List String) :
    ∃ t, joinLines (a :: l) = a ++ t := by
  cases l with
  | nil => exact ⟨"", by simp [joinLines]⟩
  | cons b rest =>
    exact ⟨"\n" ++ joinLines (b :: rest), by simp [joinLines, String.append_assoc]⟩

theorem build_message_head (w : Option WeatherFact) (n : Option NewsFact) :
    ∃ t, build_message w n = "Доброе утро ☀️" ++ t :=
  joinLines_cons_eq _ _

theorem build_message_ne_empty (w : Option WeatherFact) (n : Option NewsFact) :
    build_message w n ≠ "" := by
  obtain ⟨t, ht⟩ := build_message_head w n
  intro hempty
  rw [ht] at hempty
  have hlen := congrArg String.length hempty
  rw [String.length_append] at hlen
  have hpos : 0 < "Доброе утро ☀️".length := by decide
  simp at hlen
  omega

/-! ### Claim C1 -/

/-- C1: for every combination of weather outcome (success or failure) and
news outcome (success with a matching article, success with no match, or
failure), `build_message` / `build_daily_message` return a non-empty
message and never fail as a whole: an absent weather fact yields the fixed
weather-unavailable placeholder line, a present one the four weather
lines; an absent news fact yields the fixed no-positive-news placeholder
line, a present one the title, description and URL lines in that order. -/
theorem claim_C1_digest_total (w : Option WeatherFact) (n : Option NewsFact)
    (wr : Except String WeatherFact) (nr : Except String (Option NewsFact)) :
    build_message w n ≠ "" ∧
    build_daily_message wr nr ≠ "" ∧
    (w = none → weather_unavailable_line ∈ build_message_lines w n) ∧
    (∀ wf, w = some wf →
      ∃ p q, build_message_lines w n = p ++ weather_block wf ++ q) ∧
    (n = none → no_news_line ∈ build_message_lines w n) ∧
    (∀ nf, n = some nf →
      ∃ p q, build_message_lines w n
        = p ++ [nf.title, nf.description, nf.url] ++ q) := by
  refine ⟨build_message_ne_empty w n, build_message_ne_empty _ _, ?_, ?_, ?_, ?_⟩
  · rintro rfl
    simp [build_message_lines]
  · rintro wf rfl
    refine ⟨["Доброе утро ☀️", "", "📍 Москва"],
      ["", "📰 Хорошая новость дня:"] ++
        (match n with
         | none => [no_news_line]
         | some nf => [nf.title, nf.description, nf.url]), ?_⟩
    simp [build_message_lines]
  · rintro rfl
    simp [build_message_lines]
  · rintro nf rfl
    refine ⟨["Доброе утро ☀️", "", "📍 Москва"] ++
      (match w with
       | none => [weather_unavailable_line]
       | some wf => weather_block wf) ++
      ["", "📰 Хорошая новость дня:"], [], ?_⟩
    simp [build_message_lines]

theorem claim_C1_digest_total_witness :
    build_message none (some ⟨"t", "d", "u"⟩) ≠ "" ∧
    weather_unavailable_line ∈ build_message_lines none (some ⟨"t", "d", "u"⟩) ∧
    (∃ p q, build_message_lines none (some ⟨"t", "d", "u"⟩)
      = p ++ ["t", "d", "u"] ++ q) := by
  obtain ⟨h1, _h2, h3, _h4, _h5, h6⟩ :=
    claim_C1_digest_total none (some ⟨"t", "d", "u"⟩) (.error "boom") (.ok none)
  exact ⟨h1, h3 rfl, h6 _ rfl⟩

/-! ### Claim C2 -/

/-- C2: the claim says `load_subscribers` returns the empty set for every
file state and never lets an exception escape.  This is refuted by the
code: a file whose content is the valid JSON document `[null]` reaches the
set comprehension, where `int(None)` raises `TypeError` — which is not in
the caught tuple `(OSError, ValueError, json.JSONDecodeError)` and
escapes.  A missing file, an unreadable/unparseable file, and a non-list
document do return the empty set as claimed. -/
theorem claim_C2_load_typeerror_escapes :
    load_subscribers (some (.ok (Json.arr [Json.null])))
      = .error PyError.typeError ∧
    load_subscribers none = .ok (∅ : Finset Int) ∧
    load_subscribers (some (.error "Expecting value: line 1 column 1 (char 0)"))
      = .ok (∅ : Finset Int) ∧
    load_subscribers (some (.ok (Json.str "not json"))) = .ok (∅ : Finset Int) :=
  ⟨rfl, rfl, rfl, rfl⟩

/-! ### Claim C10 -/

/-- C10: an inbound update with no effective chat makes `start_handler` a
complete no-op: the subscriber set is unchanged, no file write occurs, and
no confirmation reply is sent. -/
theorem claim_C10_no_chat_noop (u : TgUpdate) (subs : Finset Int)
    (h : u.effective_chat = none) :
    start_handler u subs
      = { subscribers := subs, fileWrite := none, replied := false } := by
  simp [start_handler, h]

theorem claim_C10_no_chat_noop_witness :
    (⟨none, true⟩ : TgUpdate).effective_chat = none ∧
    start_handler ⟨none, true⟩ {5}
      = { subscribers := {5}, fileWrite := none, replied := false } :=
  ⟨rfl, claim_C10_no_chat_noop ⟨none, true⟩ {5} rfl⟩

/-! ### Claim C4 -/

theorem pyRstrip_length_le (s : String) : (pyRstrip s).length ≤ s.length := by
  simp only [pyRstrip, String.length_mk, List.length_reverse]
  refine le_trans ((List.dropWhile_suffix _).sublist).length_le ?_
  rw [List.length_reverse]
  exact Nat.le.refl

/-- C4: a news description whose (trimmed) length exceeds
`MAX_DESCRIPTION_LEN` is truncated — the result is strictly shorter and
ends with the three-dot ellipsis marker; a description at or under the
limit is returned unmodified. -/
theorem claim_C4_truncation (d : String) :
    (MAX_DESCRIPTION_LEN < d.length →
      (∃ t, (truncate_description d).data = t ++ ['.', '.', '.']) ∧
      (truncate_description d).length < d.length) ∧
    (d.length ≤ MAX_DESCRIPTION_LEN → truncate_description d = d) := by
  constructor
  · intro h
    unfold truncate_description
    rw [if_pos h]
    constructor
    · exact ⟨(pyRstrip ⟨d.data.take (MAX_DESCRIPTION_LEN - 3)⟩).data,
        by rw [String.data_append]⟩
    · rw [String.length_append]
      have h1 : (pyRstrip ⟨d.data.take (MAX_DESCRIPTION_LEN - 3)⟩).length
          ≤ MAX_DESCRIPTION_LEN - 3 := by
        refine le_trans (pyRstrip_length_le _) ?_
        rw [String.length_mk, List.length_take]
        exact Nat.min_le_left _ _
      have h2 : ("..." : String).length = 3 := by decide
      rw [h2]
      have h3 : MAX_DESCRIPTION_LEN = 260 := rfl
      rw [h3] at h h1 ⊢
      omega
  · intro h
    unfold truncate_description
    rw [if_neg (Nat.not_lt.mpr h)]

theorem claim_C4_truncation_witness :
    MAX_DESCRIPTION_LEN < (String.mk (List.replicate 300 'a')).length ∧
    (∃ t, (truncate_description (String.mk (List.replicate 300 'a'))).data
      = t ++ ['.', '.', '.']) ∧
    (truncate_description (String.mk (List.replicate 300 'a'))).length
      < (String.mk (List.replicate 300 'a')).length ∧
    truncate_description "short news" = "short news" := by
  have h1 := claim_C4_truncation (String.mk (List.replicate 300 'a'))
  have h2 := claim_C4_truncation "short news"
  have hlen : MAX_DESCRIPTION_LEN < (String.mk (List.replicate 300 'a')).length := by
    rw [String.length_mk, List.length_replicate]
    decide
  exact ⟨hlen, (h1.1 hlen).1, (h1.1 hlen).2, h2.2 (by decide)⟩

/-! ### Claim C5 -/

theorem select_positive_news_cons (a : RawArticle) (rest : List RawArticle) :
    select_positive_news (a :: rest)
      = if valid_article a then some (mk_news_fact a)
        else select_positive_news rest := rfl

theorem select_positive_news_eq_find (arts : List RawArticle) :
    select_positive_news arts = (arts.find? valid_article).map mk_news_fact := by
  induction arts with
  | nil => rfl
  | cons a rest ih =>
    rw [select_positive_news_cons, List.find?_cons]
    cases hv : valid_article a with
    | true => simp
    | false => simp [ih]

/-- C5: on every upstream article list, `fetch_positive_news` selects the
first article, in upstream order, whose title, description and URL are all
non-empty after trimming, and builds the fact from it; when no article
qualifies, the result is `None` returned as a success, distinct from the
failure outcomes. -/
theorem claim_C5_news_selection (arts : List RawArticle) (r : NewsResponse)
    (h429 : r.status_code ≠ 429) (hstatus : r.status_code < 400)
    (herr : r.status ≠ some "error") :
    select_positive_news arts = (arts.find? valid_article).map mk_news_fact ∧
    fetch_positive_news r = .ok (select_positive_news r.articles) := by
  refine ⟨select_positive_news_eq_find arts, ?_⟩
  have hle : ¬(400 ≤ r.status_code) := Nat.not_le.mpr hstatus
  simp [fetch_positive_news, h429, hle, herr]

theorem claim_C5_news_selection_witness :
    select_positive_news
        [⟨some "", some "skipped", some "u0"⟩,
         ⟨some "Good news", some " a breakthrough ", some "https://x"⟩,
         ⟨some "Later", some "also valid", some "https://y"⟩]
      = some ⟨"Good news", "a breakthrough", "https://x"⟩ ∧
    fetch_positive_news ⟨200, some "ok", none, []⟩ = .ok none := by
  obtain ⟨h1, h2⟩ := claim_C5_news_selection
    [⟨some "", some "skipped", some "u0"⟩,
     ⟨some "Good news", some " a breakthrough ", some "https://x"⟩,
     ⟨some "Later", some "also valid", some "https://y"⟩]
    ⟨200, some "ok", none, []⟩
    (by decide) (by decide) (by decide)
  constructor
  · rw [h1]; rfl
  · rw [h2]; rfl

/-! ### Broadcast lemmas -/

theorem deliver_loop_attempts (deliver : Int → DeliveryOutcome) (l : List Int) :
    (deliver_loop deliver l).1 = l := by
  induction l with
  | nil => rfl
  | cons c rest ih => simp [deliver_loop, ih]

theorem deliver_loop_stale (deliver : Int → DeliveryOutcome) (l : List Int) :
    (deliver_loop deliver l).2
      = (l.filter fun c => classify_permanent (deliver c)).toFinset := by
  induction l with
  | nil => rfl
  | cons c rest ih =>
    rw [List.filter_cons]
    cases hv : classify_permanent (deliver c) with
    | true => simp [deliver_loop, hv, ih]
    | false => simp [deliver_loop, hv, ih]

theorem send_daily_digest_attempts (subs : Finset Int)
    (deliver : Int → DeliveryOutcome) :
    (send_daily_digest subs deliver).attempts
      = if subs = ∅ then [] else subs.sort (· ≤ ·) := by
  unfold send_daily_digest
  by_cases hs : subs = ∅
  · simp [hs]
  · rw [if_neg hs, if_neg hs]
    dsimp only
    split <;> simp [deliver_loop_attempts]

theorem send_daily_digest_stale (subs : Finset Int)
    (deliver : Int → DeliveryOutcome) :
    (send_daily_digest subs deliver).stale
      = subs.filter fun c => classify_permanent (deliver c) := by
  unfold send_daily_digest
  by_cases hs : subs = ∅
  · simp [hs]
  · rw [if_neg hs]
    dsimp only
    have hst : (deliver_loop deliver (subs.sort (· ≤ ·))).2
        = subs.filter fun c => classify_permanent (deliver c) := by
      rw [deliver_loop_stale, List.toFinset_filter, Finset.sort_toFinset]
    split <;> simp [hst]

theorem send_daily_digest_newSubscribers (subs : Finset Int)
    (deliver : Int → DeliveryOutcome) :
    (send_daily_digest subs deliver).newSubscribers
      = subs \ (send_daily_digest subs deliver).stale := by
  unfold send_daily_digest
  by_cases hs : subs = ∅
  · simp [hs]
  · rw [if_neg hs]
    dsimp only
    split
    next h2 => simp [h2]
    next h2 => simp

theorem send_daily_digest_fileWrite (subs : Finset Int)
    (deliver : Int → DeliveryOutcome) :
    (send_daily_digest subs deliver).fileWrite
      = if (send_daily_digest subs deliver).stale = ∅ then none
        else some (save_subscribers
          (subs \ (send_daily_digest subs deliver).stale)) := by
  unfold send_daily_digest
  by_cases hs : subs = ∅
  · simp [hs]
  · rw [if_neg hs]
    dsimp only
    split
    next h2 => simp [h2]
    next h2 => simp [h2]


theorem send_daily_digest_count (subs : Finset Int)
    (deliver : Int → DeliveryOutcome) (c : Int) :
    (send_daily_digest subs deliver).attempts.count c
      = if c ∈ subs then 1 else 0 := by
  rw [send_daily_digest_attempts]
  by_cases hs : subs = ∅
  · subst hs
    simp
  · rw [if_neg hs, List.count_eq_of_nodup (Finset.sort_nodup _ _)]
    simp [Finset.mem_sort]

/-! ### Claims C3, C6, C7 -/

/-- The delivery behaviour of the C3 scenario: recipient 2 raises a
"chat not found" failure, everyone else succeeds. -/
def chatNotFoundFor2 : Int → DeliveryOutcome :=
  fun c => if c = 2 then .err "Chat not found" else .ok

theorem chatNotFoundFor2_stale :
    (send_daily_digest {1, 2, 3} chatNotFoundFor2).stale = {2} := by
  rw [send_daily_digest_stale]
  have h1 : classify_permanent (chatNotFoundFor2 1) = false := by decide
  have h2 : classify_permanent (chatNotFoundFor2 2) = true := by decide
  have h3 : classify_permanent (chatNotFoundFor2 3) = false := by decide
  rw [show ({1, 2, 3} : Finset Int) = insert 1 (insert 2 {3}) from rfl,
    Finset.filter_insert, Finset.filter_insert, Finset.filter_singleton]
  simp [h1, h2, h3]

/-- C3: for every recipient set and every assignment of delivery
outcomes, `send_daily_digest` attempts delivery exactly once to every
recipient in the snapshot regardless of other recipients' failures, and
the unreachable set is exactly the recipients whose failure message
carries a permanent-failure marker ("forbidden"/"chat not found",
case-insensitively); in particular, for recipients {1, 2, 3} with only 2
raising "Chat not found", the unreachable set is {2} and 1 and 3 are
still attempted. -/
theorem claim_C3_per_recipient_isolation (subs : Finset Int)
    (deliver : Int → DeliveryOutcome) :
    (∀ c : Int, (send_daily_digest subs deliver).attempts.count c
      = if c ∈ subs then 1 else 0) ∧
    (send_daily_digest subs deliver).stale
      = subs.filter (fun c => classify_permanent (deliver c)) ∧
    (send_daily_digest {1, 2, 3} chatNotFoundFor2).stale = {2} ∧
    (send_daily_digest {1, 2, 3} chatNotFoundFor2).attempts.count 1 = 1 ∧
    (send_daily_digest {1, 2, 3} chatNotFoundFor2).attempts.count 3 = 1 := by
  refine ⟨send_daily_digest_count subs deliver,
    send_daily_digest_stale subs deliver, chatNotFoundFor2_stale, ?_, ?_⟩
  · rw [send_daily_digest_count]
    simp
  · rw [send_daily_digest_count]
    simp

/-- C6: with an empty recipient set, `send_daily_digest` performs no
delivery attempts, assembles no digest, reports no unreachable
recipients, and leaves the subscriber set and the persisted file
untouched. -/
theorem claim_C6_empty_short_circuit (deliver : Int → DeliveryOutcome) :
    send_daily_digest ∅ deliver
      = { assembled := false, attempts := [], stale := ∅,
          newSubscribers := ∅, fileWrite := none } := by
  simp [send_daily_digest]

/-- The delivery behaviour of the C7 witness: recipient 2 is blocked
("Forbidden"), everyone else succeeds. -/
def forbiddenFor2 : Int → DeliveryOutcome :=
  fun c => if c = 2 then .err "Forbidden: bot was blocked by the user" else .ok

theorem forbiddenFor2_stale :
    (send_daily_digest {1, 2} forbiddenFor2).stale = {2} := by
  rw [send_daily_digest_stale]
  have h1 : classify_permanent (forbiddenFor2 1) = false := by decide
  have h2 : classify_permanent (forbiddenFor2 2) = true := by decide
  rw [show ({1, 2} : Finset Int) = insert 1 {2} from rfl,
    Finset.filter_insert, Finset.filter_singleton]
  simp [h1, h2]

theorem all_ok_stale (subs : Finset Int) :
    (send_daily_digest subs (fun _ => .ok)).stale = ∅ := by
  rw [send_daily_digest_stale]
  simp [classify_permanent]

/-- C7: after a broadcast cycle the subscriber set is mutated and
re-persisted only when the unreachable set is non-empty, and then the new
set is exactly the old set minus the unreachable ids; when no delivery
failed permanently, the in-memory set and the persisted file are left
unchanged. -/
theorem claim_C7_prune_only_when_stale (subs : Finset Int)
    (deliver : Int → DeliveryOutcome) :
    ((send_daily_digest subs deliver).stale ≠ ∅ →
      (send_daily_digest subs deliver).newSubscribers
        = subs \ (send_daily_digest subs deliver).stale ∧
      (send_daily_digest subs deliver).fileWrite
        = some (save_subscribers
            (subs \ (send_daily_digest subs deliver).stale))) ∧
    ((send_daily_digest subs deliver).stale = ∅ →
      (send_daily_digest subs deliver).newSubscribers = subs ∧
      (send_daily_digest subs deliver).fileWrite = none) := by
  constructor
  · intro hne
    exact ⟨send_daily_digest_newSubscribers subs deliver,
      by rw [send_daily_digest_fileWrite, if_neg hne]⟩
  · intro he
    refine ⟨?_, by rw [send_daily_digest_fileWrite, if_pos he]⟩
    rw [send_daily_digest_newSubscribers, he, Finset.sdiff_empty]

theorem claim_C7_prune_only_when_stale_witness :
    ((send_daily_digest {1, 2} forbiddenFor2).stale ≠ ∅ ∧
      (send_daily_digest {1, 2} forbiddenFor2).newSubscribers
        = {1, 2} \ (send_daily_digest {1, 2} forbiddenFor2).stale ∧
      (send_daily_digest {1, 2} forbiddenFor2).fileWrite
        = some (save_subscribers
            ({1, 2} \ (send_daily_digest {1, 2} forbiddenFor2).stale))) ∧
    ((send_daily_digest {1, 2} (fun _ => .ok)).newSubscribers = {1, 2} ∧
      (send_daily_digest {1, 2} (fun _ => .ok)).fileWrite = none) := by
  have hne : (send_daily_digest {1, 2} forbiddenFor2).stale ≠ ∅ := by
    rw [forbiddenFor2_stale]
    simp
  have he : (send_daily_digest {1, 2} (fun _ => .ok)).stale = ∅ := all_ok_stale _
  obtain ⟨h1, h2⟩ := (claim_C7_prune_only_when_stale {1, 2} forbiddenFor2).1 hne
  obtain ⟨h3, h4⟩ := (claim_C7_prune_only_when_stale {1, 2} (fun _ => .ok)).2 he
  exact ⟨⟨hne, h1, h2⟩, h3, h4⟩

/-! ### Claim C8 -/

theorem intsOfItems_map_num (l : List Int) :
    intsOfItems (l.map Json.num) = .ok l := by
  induction l with
  | nil => rfl
  | cons n rest ih => simp [intsOfItems, pyInt, ih]

/-- C8: persisting a subscriber set and reloading it yields an equal set,
and the serialization is deterministic and sorted, so sets built by
inserting the same ids in any order produce identical file contents. -/
theorem claim_C8_roundtrip (s : Finset Int) (l1 l2 : List Int)
    (h : l1.toFinset = l2.toFinset) :
    load_subscribers (some (.ok (save_subscribers_json s))) = .ok s ∧
    save_subscribers l1.toFinset = save_subscribers l2.toFinset ∧
    save_subscribers_json l1.toFinset = save_subscribers_json l2.toFinset := by
  refine ⟨?_, by rw [h], by rw [h]⟩
  show load_subscribers
    (some (.ok (.arr ((save_subscribers_list s).map .num)))) = .ok s
  simp only [load_subscribers, intsOfItems_map_num]
  rw [save_subscribers_list, Finset.sort_toFinset]

theorem claim_C8_roundtrip_witness :
    ([1, 2, 2] : List Int).toFinset = ([2, 1] : List Int).toFinset ∧
    load_subscribers (some (.ok (save_subscribers_json ({1, 2} : Finset Int))))
      = .ok {1, 2} ∧
    save_subscribers ([1, 2, 2] : List Int).toFinset
      = save_subscribers ([2, 1] : List Int).toFinset := by
  have h : ([1, 2, 2] : List Int).toFinset = ([2, 1] : List Int).toFinset := by
    ext c
    simp
    tauto
  have hc := claim_C8_roundtrip ({1, 2} : Finset Int) [1, 2, 2] [2, 1] h
  exact ⟨h, hc.1, hc.2.1⟩

/-! ### Claim C9 -/

/-- Final observable state of one daily digest cycle interleaved with
`/start` commands.

The runtime is a single-threaded asyncio loop, so interleaving happens
only at `await` points.  `send_daily_digest` holds a reference to the one
shared `set` object stored in `bot_data["subscribers"]`; `start_handler`
mutates that same object in place (`subscribers.add(chat_id)`) and
persists it.  Its `await` points split the cycle into three windows:
ids added while `build_daily_message` is awaited (`addsPre`) are seen by
the loop snapshot `set(subscribers)`; ids added while a `send_message` is
awaited (`addsMid`) are not attempted but are seen by the prune step,
which re-reads the shared object (`updated = set(subscribers) -
stale_chat_ids`).  `memory` is the content of `bot_data["subscribers"]`
after the cycle, `file` the content of the last write to the subscriber
file (`none` when nothing was written). -/
def broadcast_cycle_with_adds (initial addsPre addsMid : Finset Int)
    (deliver : Int → DeliveryOutcome) : Finset Int × Option (Finset Int) :=
  if initial = ∅ then
    let final := initial ∪ addsPre ∪ addsMid
    (final, if addsPre ∪ addsMid = ∅ then none else some final)
  else
    let snapshot := initial ∪ addsPre
    let stale := snapshot.filter fun c => classify_permanent (deliver c)
    let cellFinal := snapshot ∪ addsMid
    if stale = ∅ then
      (cellFinal, if addsPre ∪ addsMid = ∅ then none else some cellFinal)
    else
      (cellFinal \ stale, some (cellFinal \ stale))

/-- C9: an id added by a concurrent `/start` during an in-progress
broadcast whose delivery outcome is not a permanent failure (in
particular, an id the prune step is unrelated to) is present in the
in-memory subscriber set and in the persisted file after the cycle —
the concurrent add is never lost. -/
theorem claim_C9_concurrent_add_not_lost
    (initial addsPre addsMid : Finset Int)
    (deliver : Int → DeliveryOutcome)
    (hadd : (99 : Int) ∈ addsPre ∪ addsMid)
    (hnp : classify_permanent (deliver 99) = false) :
    99 ∈ (broadcast_cycle_with_adds initial addsPre addsMid deliver).1 ∧
    ∃ f, (broadcast_cycle_with_adds initial addsPre addsMid deliver).2
        = some f ∧ 99 ∈ f := by
  have hne : addsPre ∪ addsMid ≠ ∅ := Finset.ne_empty_of_mem hadd
  rcases Finset.mem_union.1 hadd with hpre | hmid
  all_goals
    unfold broadcast_cycle_with_adds
    by_cases h1 : initial = ∅
  · rw [if_pos h1]
    dsimp only
    rw [if_neg hne]
    refine ⟨?_, _, rfl, ?_⟩ <;>
      simp [Finset.mem_union, hpre]
  · rw [if_neg h1]
    dsimp only
    have hnotstale : (99 : Int) ∉
        (initial ∪ addsPre).filter fun c => classify_permanent (deliver c) := by
      intro hmem
      have := (Finset.mem_filter.1 hmem).2
      rw [hnp] at this
      exact Bool.false_ne_true this
    by_cases h2 : ((initial ∪ addsPre).filter
        fun c => classify_permanent (deliver c)) = ∅
    · rw [if_pos h2]
      dsimp only
      rw [if_neg hne]
      refine ⟨?_, _, rfl, ?_⟩ <;>
        simp [Finset.mem_union, hpre]
    · rw [if_neg h2]
      refine ⟨?_, _, rfl, ?_⟩ <;>
        exact Finset.mem_sdiff.2
          ⟨by simp [Finset.mem_union, hpre], hnotstale⟩
  · rw [if_pos h1]
    dsimp only
    rw [if_neg hne]
    refine ⟨?_, _, rfl, ?_⟩ <;>
      simp [Finset.mem_union, hmid]
  · rw [if_neg h1]
    dsimp only
    have hnotstale : (99 : Int) ∉
        (initial ∪ addsPre).filter fun c => classify_permanent (deliver c) := by
      intro hmem
      have := (Finset.mem_filter.1 hmem).2
      rw [hnp] at this
      exact Bool.false_ne_true this
    by_cases h2 : ((initial ∪ addsPre).filter
        fun c => classify_permanent (deliver c)) = ∅
    · rw [if_pos h2]
      dsimp only
      rw [if_neg hne]
      refine ⟨?_, _, rfl, ?_⟩ <;>
        simp [Finset.mem_union, hmid]
    · rw [if_neg h2]
      refine ⟨?_, _, rfl, ?_⟩ <;>
        exact Finset.mem_sdiff.2
          ⟨by simp [Finset.mem_union, hmid], hnotstale⟩

theorem claim_C9_concurrent_add_not_lost_witness :
    99 ∈ (broadcast_cycle_with_adds {1, 2} ∅ {99} forbiddenFor2).1 ∧
    ∃ f, (broadcast_cycle_with_adds {1, 2} ∅ {99} forbiddenFor2).2
        = some f ∧ 99 ∈ f := by
  refine claim_C9_concurrent_add_not_lost {1, 2} ∅ {99} forbiddenFor2 ?_ ?_
  · simp
  · decide
